import Mathlib

/-!
Verification of the streamable transport and session lifecycle of the vendored
MCP (Model Context Protocol) Go SDK, `mcp` package of
`github.com/modelcontextprotocol/go-sdk@v1.2.0`.

The transport implementation itself (`mcp/streamable.go`, `mcp/client.go`,
`mcp/server.go`) is not part of this source tree; only its tests are
(`mcp/error_test.go`, `mcp/capabilities_go125_test.go`).  The behavioural
model below is therefore written from the specification of the transport, and
is validated against the expectation tables of the in-tree tests, which are
embedded verbatim as Lean lists and checked against the model by dedicated
theorems.
-/

namespace MCP

/-- Boolean check that `pat` matches the leading characters of `s`. -/
def leadMatch : List Char → List Char → Bool
  | [], _ => true
  | _ :: _, [] => false
  | a :: as, b :: bs => a == b && leadMatch as bs

/-- Boolean check that `pat` occurs somewhere in `s`. -/
def charsContain (pat : List Char) : List Char → Bool
  | [] => pat.isEmpty
  | c :: rest => leadMatch pat (c :: rest) || charsContain pat rest

/-- Boolean substring check: `strContains s pat` holds when `pat` occurs as a
substring of `s` (`pat` is nonempty in every use below). -/
def strContains (s pat : String) : Bool :=
  charsContain pat.data s.data

/-- Standard HTTP status text for the codes exercised by the tests (the Go
function `http.StatusText`). -/
def statusText (status : Nat) : String :=
  if status = 200 then "OK"
  else if status = 202 then "Accepted"
  else if status = 400 then "Bad Request"
  else if status = 401 then "Unauthorized"
  else if status = 404 then "Not Found"
  else if status = 405 then "Method Not Allowed"
  else if status = 429 then "Too Many Requests"
  else if status = 500 then "Internal Server Error"
  else if status = 502 then "Bad Gateway"
  else if status = 503 then "Service Unavailable"
  else if status = 504 then "Gateway Timeout"
  else ""

/-- Modelled from the spec: the acceptance check that the streamable client
transport (file `mcp/streamable.go`, absent from this tree) applies to the
HTTP status answering the POSTed `initialized` notification.  A conformant
server answers 202 Accepted; in strict mode any other status fails the
handshake, while non-strict mode tolerates it. -/
def initializedAccepted (strict : Bool) (status : Nat) : Bool :=
  status == 202 || !strict

/-- Modelled from the spec: the classification, by the streamable client
transport (absent from this tree), of the HTTP status answering the
standalone GET stream request.  200 opens the stream; 405 always means the
server declines a standalone stream and is tolerated; any other 4xx also
means no standalone stream but is fatal in strict mode; every remaining
status (in particular 5xx) is fatal in both modes. -/
def standaloneGetFatal (strict : Bool) (status : Nat) : Bool :=
  if status == 200 || status == 405 then false
  else if 400 ≤ status ∧ status < 500 then strict
  else true

/-- A streamable client session as visible to the claims: whether the
standalone server-to-client push stream is open, and whether an earlier fatal
transport error has broken the session. -/
structure StreamableSession where
  pushesEnabled : Bool
  broken : Bool
deriving DecidableEq

/-- Modelled from the spec: the observable outcome of `Connect` of the
streamable client transport (absent from this tree), after the initialize
POST has succeeded with a server-assigned session id and negotiated version.
The `initialized` POST is answered with `initializedStatus` and the
standalone GET with `getStatus`; the result is the established session, or
the connect error message. -/
def connectStreamable (strict : Bool) (initializedStatus getStatus : Nat) :
    Except String StreamableSession :=
  if initializedAccepted strict initializedStatus then
    if standaloneGetFatal strict getStatus then
      .error ("failed to connect standalone SSE stream: " ++ statusText getStatus)
    else
      .ok { pushesEnabled := getStatus == 200, broken := false }
  else
    .error ("initialized notification: unexpected status " ++ statusText initializedStatus)

/-- Whether a connect attempt succeeded. -/
def connOk (e : Except String StreamableSession) : Bool :=
  match e with
  | .ok _ => true
  | .error _ => false

/-- Whether a connect attempt failed with an error containing `pat`. -/
def connectErrContains (strict : Bool) (initializedStatus getStatus : Nat)
    (pat : String) : Bool :=
  match connectStreamable strict initializedStatus getStatus with
  | .error msg => strContains msg pat
  | .ok _ => false

/-- Outcome of one call on an established session. -/
inductive CallOutcome where
  | ok
  | err (msg : String)
deriving DecidableEq

/-- Modelled from the spec: the error message the client surfaces for a call
whose HTTP POST fails with `status`; 404 has special handling (the session
was not found on the server). -/
def callErrorMessage (status : Nat) : String :=
  if status == 404 then "session not found"
  else "unexpected HTTP status: " ++ statusText status

/-- Modelled from the spec: the transient HTTP statuses of the failure
classification of the streamable client transport (absent from this tree):
429, 502, 503 and 504 fail the call but leave the session usable. -/
def transientStatus (status : Nat) : Bool :=
  status == 429 || status == 502 || status == 503 || status == 504

/-- Modelled from the spec: one call on a streamable session whose HTTP POST
is answered with `status`.  A broken session fails every call outright; 200
is a success; a transient status fails the call but keeps the session
usable; any other 4xx fails the call and marks the session broken; every
remaining status fails the call only. -/
def doCall (sess : StreamableSession) (status : Nat) :
    CallOutcome × StreamableSession :=
  if sess.broken then (.err "session is broken", sess)
  else if status == 200 then (.ok, sess)
  else if transientStatus status then (.err (callErrorMessage status), sess)
  else if 400 ≤ status ∧ status < 500 then
    (.err (callErrorMessage status), { sess with broken := true })
  else (.err (callErrorMessage status), sess)

/-- One SSE stream segment of a call: the event ids delivered in order before
the stream closed, and whether the terminating Response arrived at the end. -/
structure StreamSegment where
  events : List Nat
  response : Bool
deriving DecidableEq

/-- Outcome of the per-call stream loop. -/
inductive StreamCallOutcome where
  | delivered
  | failed (msg : String)
  | abandoned
deriving DecidableEq

/-- The last delivered event id after a segment, given the last id observed
before it. -/
def lastEventId (old : Option Nat) (events : List Nat) : Option Nat :=
  match events.getLast? with
  | some n => some n
  | none => old

/-- Modelled from the spec: the per-call stream loop of the streamable client
transport (absent from this tree).  The first segment is the body of the
POST; each later segment is the body of one resumption GET.  A segment
ending with the Response delivers the call.  A disconnect with no event ever
delivered is unresumable and fails at once with a terminated-without-response
error; otherwise the client makes exactly one resumption GET per disconnect,
whose Last-Event-ID values are collected in the second component. -/
def runCallFrom : Option Nat → List StreamSegment → StreamCallOutcome × List Nat
  | _, [] => (.abandoned, [])
  | last, seg :: rest =>
    if seg.response then (.delivered, [])
    else
      match lastEventId last seg.events with
      | none => (.failed "stream terminated without response", [])
      | some n =>
        ((runCallFrom (some n) rest).1, n :: (runCallFrom (some n) rest).2)

/-- A call starts with a POST-opened stream and no observed event id. -/
def runCall (segs : List StreamSegment) : StreamCallOutcome × List Nat :=
  runCallFrom none segs

/-- One HTTP exchange issued by the streamable client, keyed as by the fake
server of the tests (HTTP method, session id header, JSON-RPC method of a
POSTed request, Last-Event-ID header), together with the value of the
MCP-Protocol-Version header. -/
structure HttpExchange where
  httpMethod : String
  sessionID : String
  jsonrpcMethod : String
  lastEventID : String
  protocolVersion : String
deriving DecidableEq

/-- Modelled from the spec: the HTTP exchanges issued by `Connect` of the
streamable client transport (absent from this tree): a POST of the
initialize request with no session id header, then a POST of the initialized
notification and a GET of the standalone stream, both carrying the
server-assigned session id and the negotiated protocol version. -/
def connectExchanges (sid version : String) : List HttpExchange :=
  [ { httpMethod := "POST", sessionID := "", jsonrpcMethod := "initialize",
      lastEventID := "", protocolVersion := "" },
    { httpMethod := "POST", sessionID := sid,
      jsonrpcMethod := "notifications/initialized",
      lastEventID := "", protocolVersion := version },
    { httpMethod := "GET", sessionID := sid, jsonrpcMethod := "",
      lastEventID := "", protocolVersion := version } ]

/-- Modelled from the spec: closing the session issues a single DELETE with
the session id. -/
def closeExchanges (sid version : String) : List HttpExchange :=
  [ { httpMethod := "DELETE", sessionID := sid, jsonrpcMethod := "",
      lastEventID := "", protocolVersion := version } ]

/-- Modelled from the spec: the POST of one later call on the session. -/
def callExchange (sid version method : String) : HttpExchange :=
  { httpMethod := "POST", sessionID := sid, jsonrpcMethod := method,
    lastEventID := "", protocolVersion := version }

/-- The full exchange trace of the lifecycle scenario: connect, then close. -/
def lifecycleTrace (sid version : String) : List HttpExchange :=
  connectExchanges sid version ++ closeExchanges sid version

/-- Every exchange the client sends on the session after the initialize
request itself: the initialized POST, the standalone GET, the POSTs of the
given later calls, and the closing DELETE. -/
def exchangesAfterInit (sid version : String) (callMethods : List String) :
    List HttpExchange :=
  (connectExchanges sid version).drop 1
    ++ callMethods.map (callExchange sid version)
    ++ closeExchanges sid version

/-- The tools capability entry of the SDK (`ToolCapabilities`). -/
structure ToolCapabilities where
  listChanged : Bool
deriving DecidableEq

/-- The server capability set of the SDK (`ServerCapabilities`); only the
field relevant to the claims is modelled. -/
structure ServerCapabilities where
  tools : Option ToolCapabilities
deriving DecidableEq

/-- The roots capability entry of the SDK (`RootCapabilities`). -/
structure RootCapabilities where
  listChanged : Bool
deriving DecidableEq

/-- The client capability set of the SDK (`ClientCapabilities`): it has
roots- and elicitation-related fields and no tools field at all, so a client
cannot advertise a tools listChanged capability.  Only the field relevant to
the claims is modelled. -/
structure ClientCapabilities where
  rootsV2 : Option RootCapabilities
deriving DecidableEq

/-- Modelled from the spec: whether the server (file `mcp/server.go`, absent
from this tree) sends a tools list-changed notification after `AddTool`:
the gate is the server option capability set of the sending server itself,
defaulting to advertised when the options leave it unset. -/
def serverSendsToolListChanged (opts : Option ServerCapabilities) : Bool :=
  match opts with
  | none => true
  | some caps =>
    match caps.tools with
    | none => true
    | some t => t.listChanged

/-- Modelled from the spec: whether the client (file `mcp/client.go`, absent
from this tree) sends a roots list-changed notification after `AddRoots`:
the gate is the client option capability set of the sending client itself,
defaulting to advertised when the options leave it unset. -/
def clientSendsRootsListChanged (opts : Option ClientCapabilities) : Bool :=
  match opts with
  | none => true
  | some caps =>
    match caps.rootsV2 with
    | none => true
    | some r => r.listChanged

/-- The reading demanded by the claim under examination: a tools listChanged
capability advertised by the peer that does not send the notification, that
is, by the client.  The client capability set of the SDK has no tools field,
so no client value ever advertises it. -/
def clientAdvertisesToolListChanged (_ : Option ClientCapabilities) : Bool :=
  false

/-- Possible outcomes of a tool handler, as exercised by
`TestToolErrorHandling`: a successful result, a structured JSON-RPC error
(code and message), or an ordinary Go error carrying only a message. -/
inductive ToolHandlerOutcome where
  | success (content : List String)
  | rpcError (code : Int) (msg : String)
  | ordinaryError (msg : String)
deriving DecidableEq

/-- The result of a tools call: the IsError flag and the text contents. -/
structure CallToolResult where
  isError : Bool
  content : List String
deriving DecidableEq

/-- A JSON-RPC response on the wire: either a result, or an error object
carrying a code and a message. -/
inductive WireResponse where
  | result (r : CallToolResult)
  | error (code : Int) (msg : String)
deriving DecidableEq

/-- Modelled from the spec: how the server (absent from this tree) turns a
tool handler outcome into the JSON-RPC response of the tools call: an
ordinary handler error becomes a successful response whose result has the
IsError flag set and the error message as its text content, while a
handler-returned JSON-RPC error is sent as the response error with its
original code and message. -/
def serverRespondToolCall : ToolHandlerOutcome → WireResponse
  | .success c => .result { isError := false, content := c }
  | .rpcError code msg => .error code msg
  | .ordinaryError msg => .result { isError := true, content := [msg] }

/-- Modelled from the spec: the client side of `CallTool`: a wire error is
surfaced to the caller as the call error, and a wire result is returned as
the call result. -/
def clientCallTool (resp : WireResponse) : Except (Int × String) CallToolResult :=
  match resp with
  | .result r => .ok r
  | .error code msg => .error (code, msg)

/-- Expectation table of `TestStreamableClientGETHandling`
(`mcp/error_test.go`, lines 617 to 628): the status answering the standalone
GET, and the required Connect error substring (empty for success); the test
runs a non-strict transport with a conformant 202 initialized response. -/
def getHandlingTable : List (Nat × String) :=
  [ (200, ""), (405, ""), (404, ""), (400, ""), (500, "standalone SSE") ]

/-- Expectation table of `TestStreamableClientStrictness`
(`mcp/error_test.go`, lines 682 to 698): the strict flag, the status
answering the initialized POST, the status answering the standalone GET, and
whether Connect must fail. -/
def strictnessTable : List (Bool × Nat × Nat × Bool) :=
  [ (true, 202, 405, false),
    (true, 200, 405, true),
    (false, 200, 405, false),
    (true, 202, 404, true),
    (false, 200, 404, false),
    (false, 200, 400, false),
    (false, 200, 500, true) ]

/-- Expectation table of `TestStreamableClientTransientErrors`
(`mcp/error_test.go`, lines 936 to 978): the status answering the first call
POST, whether that call must fail, whether the session must then be broken,
and the required error substring. -/
def transientTable : List (Nat × Bool × Bool × String) :=
  [ (503, true, false, "Service Unavailable"),
    (502, true, false, "Bad Gateway"),
    (504, true, false, "Gateway Timeout"),
    (429, true, false, "Too Many Requests"),
    (401, true, true, "Unauthorized"),
    (404, true, true, "not found") ]

/-- Expectation table of `TestServerListChangedNotifications`
(`mcp/capabilities_go125_test.go`, lines 24 to 52): the server capability
options and the number of tools list-changed notifications the connected
client must observe after `AddTool`. -/
def serverListChangedTable : List (Option ServerCapabilities × Nat) :=
  [ (none, 1),
    (some { tools := some { listChanged := false } }, 0),
    (some { tools := some { listChanged := true } }, 1) ]

/-- Expectation table of `TestClientListChangedNotifications`
(`mcp/capabilities_go125_test.go`, lines 108 to 136): the client capability
options and the number of roots list-changed notifications the connected
server must observe after `AddRoots`. -/
def clientListChangedTable : List (Option ClientCapabilities × Nat) :=
  [ (none, 1),
    (some { rootsV2 := some { listChanged := false } }, 0),
    (some { rootsV2 := some { listChanged := true } }, 1) ]

/-- The connect model reproduces every row of the embedded
`TestStreamableClientGETHandling` table. -/
theorem connect_matches_getHandlingTable :
    ∀ row ∈ getHandlingTable,
      connOk (connectStreamable false 202 row.1) = (row.2 == "") ∧
      (row.2 ≠ "" → connectErrContains false 202 row.1 row.2 = true) := by
  decide

/-- The connect model reproduces every row of the embedded
`TestStreamableClientStrictness` table. -/
theorem connect_matches_strictnessTable :
    ∀ row ∈ strictnessTable,
      connOk (connectStreamable row.1 row.2.1 row.2.2.1) = !row.2.2.2 := by
  decide

/-- The call model reproduces every row of the embedded
`TestStreamableClientTransientErrors` table: the first call fails with the
required substring in its error, and a second call answered 200 succeeds
exactly when the session is not broken. -/
theorem doCall_matches_transientTable :
    ∀ row ∈ transientTable,
      (doCall ⟨false, false⟩ row.1).1 = .err (callErrorMessage row.1) ∧
      strContains (callErrorMessage row.1) row.2.2.2 = true ∧
      (((doCall (doCall ⟨false, false⟩ row.1).2 200).1 = .ok) ↔ row.2.2.1 = false) := by
  decide

/-- The list-changed model reproduces both embedded capability test tables. -/
theorem listChanged_matches_tables :
    (∀ row ∈ serverListChangedTable,
        (if serverSendsToolListChanged row.1 then 1 else 0) = row.2) ∧
    (∀ row ∈ clientListChangedTable,
        (if clientSendsRootsListChanged row.1 then 1 else 0) = row.2) := by
  decide

/-- The wire model preserves the error code of `TestToolErrorHandling`: the
structured error of the test (code InvalidParams, -32602) reaches the caller
unchanged. -/
theorem toolError_invalidParams_code :
    clientCallTool (serverRespondToolCall (.rpcError (-32602) "internal server error")) =
      .error (-32602, "internal server error") := rfl

/-- Auxiliary: a nonempty list has a last element. -/
theorem exists_getLast?_of_ne_nil (l : List Nat) (h : l ≠ []) :
    ∃ n, l.getLast? = some n := by
  cases hl : l.getLast? with
  | none => exact absurd (List.getLast?_eq_none_iff.mp hl) h
  | some n => exact ⟨n, rfl⟩

/-- Auxiliary: the stream loop on a run made of resumable disconnects
followed by a delivering segment: it delivers, and issues one resumption GET
per disconnect whose Last-Event-ID is the last event id of the segment that
disconnected. -/
theorem runCallFrom_delivered (last : Option Nat) (mids : List StreamSegment)
    (fin : StreamSegment)
    (hm : ∀ seg ∈ mids, seg.events ≠ [] ∧ seg.response = false)
    (hf : fin.response = true) :
    runCallFrom last (mids ++ [fin]) =
      (.delivered, mids.map (fun seg => seg.events.getLast?.getD 0)) := by
  induction mids generalizing last with
  | nil => simp [runCallFrom, hf]
  | cons seg rest ih =>
    obtain ⟨hev, hresp⟩ := hm seg (by simp)
    have hrest : ∀ s ∈ rest, s.events ≠ [] ∧ s.response = false :=
      fun s hs => hm s (by simp [hs])
    obtain ⟨n, hn⟩ := exists_getLast?_of_ne_nil seg.events hev
    have hlast : lastEventId last seg.events = some (seg.events.getLast?.getD 0) := by
      simp [lastEventId, hn]
    have hstep := ih (some (seg.events.getLast?.getD 0)) hrest
    have e1 : runCallFrom last ((seg :: rest) ++ [fin]) =
        ((runCallFrom (some (seg.events.getLast?.getD 0)) (rest ++ [fin])).1,
          seg.events.getLast?.getD 0 ::
            (runCallFrom (some (seg.events.getLast?.getD 0)) (rest ++ [fin])).2) := by
      rw [List.cons_append]
      simp only [runCallFrom, hresp, Bool.false_eq_true, if_false, hlast]
    rw [e1, hstep]
    simp

/-- C1 (counterexample): the claim asserts that in non-strict mode Connect
succeeds when the standalone GET is answered with HTTP 500; in fact, with a
conformant 202 initialized response, a non-strict Connect fails, and its
error names the standalone SSE stream. -/
theorem claim_C1_counterexample :
    connOk (connectStreamable false 202 500) = false ∧
    connectErrContains false 202 500 "standalone SSE" = true := by
  decide

/-- C1 (amended): an HTTP 500 answering the standalone GET stream request is
fatal in BOTH modes: whenever the initialized notification was accepted,
Connect fails with an error containing the text standalone SSE. -/
theorem claim_C1_get500_fatal (strict : Bool) (istatus : Nat)
    (h : initializedAccepted strict istatus = true) :
    connOk (connectStreamable strict istatus 500) = false ∧
    connectErrContains strict istatus 500 "standalone SSE" = true := by
  have hfatal : standaloneGetFatal strict 500 = true := by
    cases strict <;> decide
  have hconn : connectStreamable strict istatus 500 =
      .error ("failed to connect standalone SSE stream: " ++ statusText 500) := by
    simp [connectStreamable, h, hfatal]
  constructor
  · unfold connOk
    rw [hconn]
  · unfold connectErrContains
    rw [hconn]
    decide

/-- Witness for C1 at the concrete strict-mode test input. -/
theorem claim_C1_get500_fatal_witness :
    connOk (connectStreamable true 202 500) = false ∧
    connectErrContains true 202 500 "standalone SSE" = true :=
  claim_C1_get500_fatal true 202 (by decide)

/-- C2: a call whose HTTP POST is answered with 429, 502, 503 or 504 fails
with an error containing the corresponding status text, and the session
remains usable: a following call answered 200 succeeds. -/
theorem claim_C2_transient_errors (s : Nat)
    (hs : s = 429 ∨ s = 502 ∨ s = 503 ∨ s = 504)
    (sess : StreamableSession) (hb : sess.broken = false) :
    (doCall sess s).1 = .err (callErrorMessage s) ∧
    strContains (callErrorMessage s) (statusText s) = true ∧
    (doCall (doCall sess s).2 200).1 = .ok := by
  have htr : transientStatus s = true := by
    rcases hs with h | h | h | h <;> subst h <;> decide
  have hne : (s == 200) = false := by
    rcases hs with h | h | h | h <;> subst h <;> decide
  refine ⟨?_, ?_, ?_⟩
  · simp [doCall, hb, hne, htr]
  · rcases hs with h | h | h | h <;> subst h <;> decide
  · simp [doCall, hb, hne, htr]

/-- Witness for C2 at status 503 on a fresh session. -/
theorem claim_C2_transient_errors_witness :
    (doCall ⟨false, false⟩ 503).1 = .err (callErrorMessage 503) ∧
    strContains (callErrorMessage 503) (statusText 503) = true ∧
    (doCall (doCall ⟨false, false⟩ 503).2 200).1 = .ok :=
  claim_C2_transient_errors 503 (by decide) ⟨false, false⟩ rfl

/-- C3: a call whose HTTP POST is answered with any 4xx other than 429
fails, and the session is broken: every subsequent call on it also fails,
whatever status the server would answer. -/
theorem claim_C3_broken_4xx (s : Nat)
    (h1 : 400 ≤ s) (h2 : s < 500) (h3 : s ≠ 429)
    (sess : StreamableSession) (hb : sess.broken = false) :
    (doCall sess s).1 = .err (callErrorMessage s) ∧
    ∀ s2, (doCall (doCall sess s).2 s2).1 ≠ .ok := by
  have hne : (s == 200) = false := by
    simp only [beq_eq_false_iff_ne, ne_eq]
    omega
  have htr : transientStatus s = false := by
    simp only [transientStatus, Bool.or_eq_false_iff, beq_eq_false_iff_ne, ne_eq]
    omega
  have h4xx : (400 ≤ s ∧ s < 500) := ⟨h1, h2⟩
  refine ⟨?_, ?_⟩
  · simp [doCall, hb, hne, htr, h4xx]
  · intro s2
    simp [doCall, hb, hne, htr, h4xx]

/-- Witness for C3 at status 401 on a fresh session, second call answered
200. -/
theorem claim_C3_broken_4xx_witness :
    (doCall ⟨false, false⟩ 401).1 = .err (callErrorMessage 401) ∧
    (doCall (doCall ⟨false, false⟩ 401).2 200).1 ≠ .ok :=
  ⟨(claim_C3_broken_4xx 401 (by decide) (by decide) (by decide) ⟨false, false⟩ rfl).1,
   (claim_C3_broken_4xx 401 (by decide) (by decide) (by decide) ⟨false, false⟩ rfl).2 200⟩

/-- C4: a call whose stream closes after delivering zero events fails at
once with an error containing the text terminated without response, and no
resumption request is ever issued for it, whatever would come after. -/
theorem claim_C4_zero_events (rest : List StreamSegment) :
    runCall ({ events := [], response := false } :: rest) =
      (.failed "stream terminated without response", []) ∧
    strContains "stream terminated without response" "terminated without response" = true := by
  constructor
  · simp [runCall, runCallFrom, lastEventId]
  · decide

/-- C5: a call whose stream disconnects after delivering at least one event
triggers exactly one resumption GET per disconnect, each carrying as
Last-Event-ID the last event id delivered on the stream that disconnected,
until a segment delivers the Response. -/
theorem claim_C5_resumption (mids : List StreamSegment) (fin : StreamSegment)
    (hm : ∀ seg ∈ mids, seg.events ≠ [] ∧ seg.response = false)
    (hf : fin.response = true) :
    runCall (mids ++ [fin]) =
      (.delivered, mids.map (fun seg => seg.events.getLast?.getD 0)) :=
  runCallFrom_delivered none mids fin hm hf

/-- Witness for C5: one disconnect after event id 1, then the Response on
the resumed stream; exactly one GET, with Last-Event-ID 1. -/
theorem claim_C5_resumption_witness :
    runCall ([⟨[1], false⟩] ++ [⟨[2], true⟩]) = (.delivered, [1]) := by
  simpa using claim_C5_resumption [⟨[1], false⟩] ⟨[2], true⟩ (by decide) rfl

/-- C6 (counterexample): in the default configuration of the capability
tests the client advertises no tools listChanged capability (the client
capability set has no such field), yet the server does send the tools
list-changed notification: the notification is not gated on the capability
of the peer that does not send it. -/
theorem claim_C6_counterexample :
    serverSendsToolListChanged none = true ∧
    clientAdvertisesToolListChanged none = false := by
  decide

/-- C6 (amended): a list-changed notification is sent after AddTool or
AddRoots if and only if the corresponding listChanged capability is
advertised by the side that sends it, the advertisement defaulting to true
when the options leave it unset; when absent the notification is suppressed
as a pure configuration gate. -/
theorem claim_C6_sender_gate :
    ∀ b : Bool,
      serverSendsToolListChanged (some { tools := some { listChanged := b } }) = b ∧
      clientSendsRootsListChanged (some { rootsV2 := some { listChanged := b } }) = b ∧
      serverSendsToolListChanged none = true ∧
      clientSendsRootsListChanged none = true := by
  decide

/-- C7: connecting over the streamable transport and closing the session
performs exactly four HTTP exchanges, each exactly once: the initialize POST
with no session id, the initialized POST with the assigned session id, the
standalone GET, and the closing DELETE. -/
theorem claim_C7_lifecycle (sid version : String) :
    lifecycleTrace sid version =
      [ { httpMethod := "POST", sessionID := "", jsonrpcMethod := "initialize",
          lastEventID := "", protocolVersion := "" },
        { httpMethod := "POST", sessionID := sid,
          jsonrpcMethod := "notifications/initialized",
          lastEventID := "", protocolVersion := version },
        { httpMethod := "GET", sessionID := sid, jsonrpcMethod := "",
          lastEventID := "", protocolVersion := version },
        { httpMethod := "DELETE", sessionID := sid, jsonrpcMethod := "",
          lastEventID := "", protocolVersion := version } ] ∧
    (lifecycleTrace sid version).Nodup := by
  refine ⟨rfl, ?_⟩
  have hpg : ("POST" : String) ≠ "GET" := by decide
  have hpd : ("POST" : String) ≠ "DELETE" := by decide
  have hgd : ("GET" : String) ≠ "DELETE" := by decide
  have hii : ("initialize" : String) ≠ "notifications/initialized" := by decide
  simp [lifecycleTrace, connectExchanges, closeExchanges, List.Nodup,
    List.pairwise_cons, HttpExchange.mk.injEq, hpg, hpd, hgd, hii]

/-- C8 (counterexample): the claim asserts that a standalone GET answered
404 is never fatal; in strict mode, with a conformant initialized response,
it makes Connect fail. -/
theorem claim_C8_counterexample :
    connOk (connectStreamable true 202 404) = false := by
  decide

/-- C8 (amended): a standalone GET answered 405 is not fatal in either mode,
and one answered 404 is not fatal in non-strict mode; in both cases Connect
yields a session with the push stream disabled and the session is usable: a
call answered 200 succeeds. -/
theorem claim_C8_amended (strict : Bool) (istatus : Nat)
    (h : initializedAccepted strict istatus = true) :
    connectStreamable strict istatus 405 =
      .ok { pushesEnabled := false, broken := false } ∧
    connectStreamable false istatus 404 =
      .ok { pushesEnabled := false, broken := false } ∧
    (doCall { pushesEnabled := false, broken := false } 200).1 = .ok := by
  have hfatal405 : standaloneGetFatal strict 405 = false := by
    cases strict <;> decide
  have hacc : initializedAccepted false istatus = true := by
    simp [initializedAccepted]
  have hc1 : connectStreamable strict istatus 405 =
      .ok { pushesEnabled := false, broken := false } := by
    simp [connectStreamable, h, hfatal405]
  have hc2 : connectStreamable false istatus 404 =
      .ok { pushesEnabled := false, broken := false } := by
    simp [connectStreamable, hacc, standaloneGetFatal]
  exact ⟨hc1, hc2, by decide⟩

/-- Witness for C8 at the concrete strict-mode conformant input. -/
theorem claim_C8_amended_witness :
    connectStreamable true 202 405 =
      .ok { pushesEnabled := false, broken := false } ∧
    connectStreamable false 202 404 =
      .ok { pushesEnabled := false, broken := false } ∧
    (doCall { pushesEnabled := false, broken := false } 200).1 = .ok :=
  claim_C8_amended true 202 (by decide)

/-- C9: every exchange the client sends on the session after the initialize
request, the initialized POST, the standalone GET, the POSTs of later calls
and the closing DELETE, carries the negotiated protocol version in its
MCP-Protocol-Version header. -/
theorem claim_C9_version_header (sid version : String)
    (methods : List String) (ex : HttpExchange)
    (hex : ex ∈ exchangesAfterInit sid version methods) :
    ex.protocolVersion = version := by
  simp only [exchangesAfterInit, connectExchanges, closeExchanges,
    List.drop, List.mem_append, List.mem_cons, List.mem_singleton,
    List.mem_map, List.not_mem_nil, or_false] at hex
  rcases hex with (((rfl | rfl) | ⟨m, hm, rfl⟩) | rfl) <;> rfl

/-- Witness for C9: the standalone GET exchange of a session with id 123 and
negotiated version 2025-06-18, one later call included. -/
theorem claim_C9_version_header_witness :
    (HttpExchange.mk "GET" "123" "" "" "2025-06-18").protocolVersion = "2025-06-18" :=
  claim_C9_version_header "123" "2025-06-18" ["tools/list"]
    (HttpExchange.mk "GET" "123" "" "" "2025-06-18") (by decide)

/-- C10: a tool handler returning an ordinary error produces no
protocol-level error: the caller receives a result with the IsError flag set
whose content carries the handler message; a handler returning a structured
JSON-RPC error is surfaced to the caller directly with its original code and
message. -/
theorem claim_C10_tool_errors (m : String) (code : Int) :
    clientCallTool (serverRespondToolCall (.ordinaryError m)) =
      .ok { isError := true, content := [m] } ∧
    clientCallTool (serverRespondToolCall (.rpcError code m)) =
      .error (code, m) :=
  ⟨rfl, rfl⟩

end MCP
